import Mathlib

/-
Verification of the HDF5 persistent pickling layer of PyEMMA
(`pyemma/_base/serialization/pickle_extensions.py`).

Shallow embedding notes:
 - A numpy array is modelled by `NPArray`: its CPython memory identity
   (`id(obj)`), its dtype name, its shape and its flattened element values.
 - The HDF5 group is modelled as an association list from string keys to
   stored payloads (`StoredArray`); `create_dataset` is a cons onto the list
   and reading `group[key][:]` is an association-list lookup.  HDF5/lzf
   storage is lossless, so a stored entry preserves shape, dtype and values
   exactly.
 - Python exceptions are modelled by `Except PyError`; an `assert` failure is
   `PyError.assertionError`, `len()` on a 0-d array raises
   `PyError.typeError`, a missing group key raises `PyError.keyError`.
 - `class_rename_registry.find_replacement_for_old` lives outside the
   embedded file; `find_class` is therefore parametrised by an abstract
   exact-string-match lookup `registry` and by the generic unpickler's
   default resolver `resolve`.
 - `with mock.patch(...)` in `dump`/`load` is modelled as save / run body /
   restore, which is exactly the context-manager semantics of
   `unittest.mock.patch` (restore runs on every exit path); the body returns
   an `Except` result paired with the post state, so the raising exit path is
   the `.error` case of that result.
-/

namespace PyEMMA

/-- Python exceptions raised by the serialization layer. -/
inductive PyError where
  | unpicklingError (msg : String)
  | assertionError
  | typeError (msg : String)
  | keyError (key : String)
deriving Repr, DecidableEq

/-- A numpy array object: its CPython identity `id(obj)`, its dtype name,
its shape and its flattened element values. -/
structure NPArray where
  objId : Nat
  dtype : String
  shape : List Nat
  data : List Int
deriving Repr, DecidableEq

/-- The payload actually held by an HDF5 dataset: shape, dtype and values of
the stored array (lzf compression is lossless).  The CPython identity of the
source object is not part of the payload. -/
structure StoredArray where
  shape : List Nat
  dtype : String
  data : List Int
deriving Repr, DecidableEq

/-- The payload `create_dataset(name=key, data=array, ...)` stores. -/
def NPArray.stored (a : NPArray) : StoredArray :=
  { shape := a.shape, dtype := a.dtype, data := a.data }

/-- Python `len(obj)` on an ndarray: the first shape entry, raising
`TypeError: len() of unsized object` on a zero-dimensional array. -/
def NPArray.pyLen (a : NPArray) : Except PyError Nat :=
  match a.shape with
  | [] => .error (.typeError "len() of unsized object")
  | n :: _ => .ok n

/-- An object handed to `Pickler.save`: either a numpy array or anything
else (opaque, identified by a reference number). -/
inductive PyObj where
  | array (a : NPArray)
  | other (ref : Nat)
deriving Repr, DecidableEq

/-- The HDF5 group: an association list from dataset names to payloads. -/
abbrev Group := List (String × StoredArray)

/-- Reading `group[k]`: the payload stored under dataset name `k`, if any. -/
def groupGet (g : Group) (k : String) : Option StoredArray :=
  match g with
  | [] => none
  | (k', v) :: t => if k' = k then some v else groupGet t k

/-- `key in self.group`. -/
def groupContains (g : Group) (k : String) : Bool :=
  (groupGet g k).isSome

/-- Number of datasets in the group stored under key `k`. -/
def countKey (g : Group) (k : String) : Nat :=
  (g.filter (fun p => p.1 = k)).length

/-- `self._seen_ids.add(id_)` on a set modelled as a duplicate-free list. -/
def addSeen (i : Nat) (l : List Nat) : List Nat :=
  if i ∈ l then l else i :: l

/-- Mutable state of one `HDF5PersistentPickler` session: the HDF5 group and
the `_seen_ids` set. -/
structure PicklerState where
  group : Group
  seen_ids : List Nat
deriving Repr, DecidableEq

/-- `HDF5PersistentPickler._store`: key is `str(id(array))`; if the key is
already present in the group, `assert id_ in self._seen_ids` and return the
id; otherwise add the id to `_seen_ids`, create the dataset and return the
id. -/
def PicklerState.store (s : PicklerState) (array : NPArray) : Except PyError (Nat × PicklerState) :=
  if groupContains s.group (toString array.objId) then
    if array.objId ∈ s.seen_ids then .ok (array.objId, s)
    else .error .assertionError
  else
    .ok (array.objId, { group := (toString array.objId, array.stored) :: s.group,
                        seen_ids := addSeen array.objId s.seen_ids })

/-- `HDF5PersistentPickler.persistent_id`: redirect a non-object-dtype
ndarray not yet in `_seen_ids` to the group, except that an array of length
zero is inlined; everything else returns `None`.  `not len(obj)` evaluates
`len(obj)` first, which raises on a 0-d array. -/
def persistent_id (s : PicklerState) (obj : PyObj) :
    Except PyError (Option (String × Nat) × PicklerState) :=
  match obj with
  | .other _ => .ok (none, s)
  | .array a =>
    if a.dtype ≠ "object" ∧ a.objId ∉ s.seen_ids then
      match a.pyLen with
      | .error e => .error e
      | .ok n =>
        if n = 0 then .ok (none, s)
        else
          match s.store a with
          | .error e => .error e
          | .ok (array_id, s') => .ok (some ("np_array", array_id), s')
    else .ok (none, s)

/-- `HDF5PersistentUnpickler.persistent_load`: dispatch on the type tag;
`"np_array"` reads `self.group[str(key_id)][:]`, any other tag raises
`UnpicklingError`. -/
def persistent_load (group : Group) (pid : String × Nat) : Except PyError StoredArray :=
  if pid.1 = "np_array" then
    match groupGet group (toString pid.2) with
    | some arr => .ok arr
    | none => .error (.keyError (toString pid.2))
  else
    .error (.unpicklingError "unsupported persistent object")

/-- `HDF5PersistentUnpickler.__allowed_packages`. -/
def allowed_packages : List String :=
  ["builtin", "pyemma", "mdtraj", "numpy", "scipy"]

/-- `HDF5PersistentUnpickler.__check_allowed`: `module.find('.')` is
`findIdx?` on the character list (`none` for Python's `-1`); the package is
`module[:i]` when `i > 0` and the whole string otherwise. -/
def check_allowed (module : String) : Except PyError Unit :=
  let package :=
    match module.toList.findIdx? (fun c => c = '.') with
    | some i => if 0 < i then String.mk (module.toList.take i) else module
    | none => module
  if package ∈ allowed_packages then .ok ()
  else .error (.unpicklingError (module ++ " not allowed to unpickle"))

/-- The top-level namespace segment as the specification words it: the
substring before the first '.' separator, or the whole string if there is
none. -/
def claimSegment (module : String) : String :=
  match module.toList.findIdx? (fun c => c = '.') with
  | some i => String.mk (module.toList.take i)
  | none => module

/-- `HDF5PersistentUnpickler.find_class`: run the allow-list gate first,
then consult the rename registry on `'{module}.{name}'`, and otherwise fall
back to the generic unpickler's resolution.  The registry and the default
resolver are abstract parameters (classes are identified by numbers). -/
def find_class (registry : String → Option Nat)
    (resolve : String → String → Except PyError Nat)
    (module name : String) : Except PyError Nat :=
  match check_allowed module with
  | .error e => .error e
  | .ok _ =>
    match registry (module ++ "." ++ name) with
    | some c => .ok c
    | none => resolve module name

/-- Opaque stand-ins for `mdtraj_helpers.getstate` / `setstate`. -/
def mdtraj_getstate : Nat := 1

/-- Opaque stand-in for `mdtraj_helpers.setstate`. -/
def mdtraj_setstate : Nat := 2

/-- Process-wide state visible to `dump` / `load`: the (possibly absent)
`mdtraj.Topology.__getstate__` / `__setstate__` attributes and the pickler
session state. -/
structure ProcState where
  topology_getstate : Option Nat
  topology_setstate : Option Nat
  pickler : PicklerState
deriving Repr, DecidableEq

/-- `HDF5PersistentPickler.dump`: run the generic dump inside
`with mock.patch('mdtraj.Topology.__getstate__', getstate, create=True)`;
the saved attribute value is restored on every exit path. -/
def dump (body : ProcState → Except PyError Unit × ProcState) (s : ProcState) :
    Except PyError Unit × ProcState :=
  let saved := s.topology_getstate
  let res := body { s with topology_getstate := some mdtraj_getstate }
  (res.1, { res.2 with topology_getstate := saved })

/-- `HDF5PersistentUnpickler.load`: run the generic load inside
`with mock.patch('mdtraj.Topology.__setstate__', setstate, create=True)`;
the saved attribute value is restored on every exit path. -/
def load (body : ProcState → Except PyError PyObj × ProcState) (s : ProcState) :
    Except PyError PyObj × ProcState :=
  let saved := s.topology_setstate
  let res := body { s with topology_setstate := some mdtraj_setstate }
  (res.1, { res.2 with topology_setstate := saved })

/- ------------------------------------------------------------------ -/
/- Concrete instances used by counterexamples and witnesses           -/
/- ------------------------------------------------------------------ -/

/-- A 1-d float array with identity 1. -/
def exArr : NPArray := { objId := 1, dtype := "float64", shape := [3], data := [10, 20, 30] }

/-- A session in which `exArr` has already been redirected: its key is in
the group and its identity is in `_seen_ids`. -/
def exState : PicklerState := { group := [("1", exArr.stored)], seen_ids := [1] }

/-- A session whose group holds the key of `exArr` although the identity was
never recorded by this session. -/
def exStateBad : PicklerState := { group := [("1", exArr.stored)], seen_ids := [] }

/-- A 1-d int array with identity 5. -/
def exArr2 : NPArray := { objId := 5, dtype := "int32", shape := [2], data := [1, 2] }

/-- A session that has already redirected identity 5 without a group entry
(only the membership in `_seen_ids` matters for `persistent_id`). -/
def exState2 : PicklerState := { group := [], seen_ids := [5] }

/-- A fresh session. -/
def wState : PicklerState := { group := [], seen_ids := [] }

/-- A 1-d int array with identity 7. -/
def wArr : NPArray := { objId := 7, dtype := "int64", shape := [2], data := [4, 5] }

/-- The session obtained from `wState` by redirecting `wArr`. -/
def wStateAfter : PicklerState := { group := [("7", wArr.stored)], seen_ids := [7] }

/-- An object-dtype array (never redirected). -/
def w7ArrObj : NPArray := { objId := 3, dtype := "object", shape := [2], data := [0, 0] }

/-- A length-zero array (inlined, never redirected). -/
def w7ArrEmpty : NPArray := { objId := 4, dtype := "float64", shape := [0], data := [] }

/-- A 1-d float array with identity 11. -/
def w8Arr : NPArray := { objId := 11, dtype := "float32", shape := [1], data := [6] }

/-- A zero-dimensional array: non-object dtype, empty shape. -/
def w10Arr : NPArray := { objId := 20, dtype := "float64", shape := [], data := [5] }

/- ------------------------------------------------------------------ -/
/- Helper lemmas                                                      -/
/- ------------------------------------------------------------------ -/

/-- An array whose identity is already in `_seen_ids` falls through the
eligibility test of `persistent_id`: the result is `None` and the state is
untouched. -/
theorem persistent_id_of_seen (s : PicklerState) (a : NPArray)
    (h : a.objId ∈ s.seen_ids) :
    persistent_id s (.array a) = .ok (none, s) := by
  simp [persistent_id, h]

/-- If the gate rejects according to the spec's segment rule, then
`check_allowed` raises `UnpicklingError`.  The two segment computations
differ only for a module whose first character is '.', where both reject. -/
theorem check_allowed_error_of_claimSegment (m : String)
    (h : claimSegment m ∉ allowed_packages) :
    check_allowed m = .error (.unpicklingError (m ++ " not allowed to unpickle")) := by
  unfold claimSegment at h
  unfold check_allowed
  cases hf : m.toList.findIdx? (fun c => c = '.') with
  | none =>
      rw [hf] at h
      simp only [hf]
      rw [if_neg h]
  | some i =>
      rw [hf] at h
      simp only [hf]
      by_cases hi : 0 < i
      · have h' : ({ data := List.take i m.data } : String) ∉ allowed_packages := h
        simp [hi, h']
      · have hi0 : i = 0 := Nat.eq_zero_of_not_pos hi
        subst hi0
        have hm : m ∉ allowed_packages := by
          intro hmem
          have hne : m.toList.findIdx? (fun c => c = '.') ≠ some 0 := by
            simp only [allowed_packages, List.mem_cons, List.not_mem_nil,
              or_false] at hmem
            rcases hmem with rfl | rfl | rfl | rfl | rfl <;> decide
          exact hne hf
        simp [hm]

/-- `add` puts the element into the seen-set. -/
theorem mem_addSeen (i : Nat) (l : List Nat) : i ∈ addSeen i l := by
  by_cases h : i ∈ l <;> simp [addSeen, h]

/-- A key that `groupGet` cannot find occurs zero times in the group. -/
theorem countKey_eq_zero_of_get_none (g : Group) (k : String)
    (h : groupGet g k = none) : countKey g k = 0 := by
  induction g with
  | nil => rfl
  | cons p t ih =>
    obtain ⟨a, b⟩ := p
    unfold groupGet at h
    by_cases hak : a = k
    · rw [if_pos hak] at h; cases h
    · rw [if_neg hak] at h
      have ht := ih h
      simpa [countKey, List.filter_cons, hak] using ht

/-- Creating a dataset adds exactly one occurrence of its key. -/
theorem countKey_cons_self (g : Group) (k : String) (v : StoredArray) :
    countKey ((k, v) :: g) k = countKey g k + 1 := by
  simp [countKey, List.filter_cons]

/-- `_store` on an identity this session has never seen can only succeed by
creating the dataset: the returned key is the identity and the new group
resolves it to the exact payload of the array. -/
theorem store_fresh (s : PicklerState) (a : NPArray) (i : Nat) (s' : PicklerState)
    (hseen : a.objId ∉ s.seen_ids) (h : s.store a = .ok (i, s')) :
    i = a.objId ∧ groupGet s'.group (toString a.objId) = some a.stored := by
  unfold PicklerState.store at h
  by_cases hg : groupContains s.group (toString a.objId) = true
  · rw [if_pos hg, if_neg hseen] at h
    cases h
  · rw [if_neg hg] at h
    simp only [Except.ok.injEq, Prod.mk.injEq] at h
    obtain ⟨hi, hs⟩ := h
    subst hi
    subst hs
    exact ⟨rfl, by simp [groupGet]⟩

/- ------------------------------------------------------------------ -/
/- Claims                                                             -/
/- ------------------------------------------------------------------ -/

/-- C1: for every class reference `(module, name)` whose top-level namespace
segment (the text of the module path before the first '.', or the whole
string when there is none) is outside the allowed set, `find_class` raises
`UnpicklingError`, for every migration registry and every default resolver —
so a disallowed class fails regardless of whether a migration entry or an
importable class of that name exists. -/
theorem C1_allowlist_gate_rejects (registry : String → Option Nat)
    (resolve : String → String → Except PyError Nat) (module name : String)
    (h : claimSegment module ∉ allowed_packages) :
    find_class registry resolve module name =
      .error (.unpicklingError (module ++ " not allowed to unpickle")) := by
  unfold find_class
  rw [check_allowed_error_of_claimSegment module h]

/-- C1 witness: `evil.Payload` is rejected even though the registry has an
entry for it and the default resolver would succeed. -/
theorem C1_allowlist_gate_rejects_witness :
    claimSegment "evil" ∉ allowed_packages ∧
    find_class (fun s => if s = "evil.Payload" then some 99 else none)
      (fun _ _ => .ok 7) "evil" "Payload" =
      .error (.unpicklingError ("evil" ++ " not allowed to unpickle")) :=
  ⟨by decide, C1_allowlist_gate_rejects _ _ "evil" "Payload" (by decide)⟩

/-- C2 counterexample: `exArr` has identity 1, which is already in the
seen-set of `exState`, yet `persistent_id` returns `None` (and the unchanged
state) — not a persistent token carrying the existing key, as the claim
states. -/
theorem C2_counterexample :
    1 ∈ exState.seen_ids ∧
    persistent_id exState (.array exArr) = .ok (none, exState) :=
  ⟨by decide, by rfl⟩

/-- C2 (amended): for every numeric array instance whose identity is already
in the session's seen-set, a subsequent `persistent_id` call creates no
second Blob Store entry and returns `None` (so the generic encoder inlines
the instance); it does not return a token. -/
theorem C2_reseen_returns_none (s : PicklerState) (a : NPArray)
    (h : a.objId ∈ s.seen_ids) :
    persistent_id s (.array a) = .ok (none, s) :=
  persistent_id_of_seen s a h

/-- C2 witness: identity 5 is in the seen-set of `exState2` and the call
leaves the state untouched and yields `None`. -/
theorem C2_reseen_returns_none_witness :
    5 ∈ exState2.seen_ids ∧
    persistent_id exState2 (.array exArr2) = .ok (none, exState2) :=
  ⟨by decide, C2_reseen_returns_none exState2 exArr2 (by decide)⟩

/-- C3: for every persistent token whose tag is not `"np_array"`,
`persistent_load` raises `UnpicklingError`; it never returns a value, for no
group and no key. -/
theorem C3_unknown_tag_fails (group : Group) (tag : String) (key : Nat)
    (h : tag ≠ "np_array") :
    persistent_load group (tag, key) =
      .error (.unpicklingError "unsupported persistent object") := by
  simp [persistent_load, h]

/-- C3 witness: the token `("unknown_tag", 3)` fails the load. -/
theorem C3_unknown_tag_fails_witness :
    ("unknown_tag" : String) ≠ "np_array" ∧
    persistent_load [("k1", exArr.stored)] ("unknown_tag", 3) =
      .error (.unpicklingError "unsupported persistent object") :=
  ⟨by decide, C3_unknown_tag_fails _ _ _ (by decide)⟩

/-- C4: whenever the Writer redirects an array and emits a token, the token
is `("np_array", id(array))` and resolving it with the Reader against the
group left behind by the Writer returns a payload whose shape, dtype and
element values are exactly those of the array (lossless round-trip). -/
theorem C4_roundtrip (s s' : PicklerState) (a : NPArray) (tok : String × Nat)
    (h : persistent_id s (.array a) = .ok (some tok, s')) :
    tok = ("np_array", a.objId) ∧
    ∃ r, persistent_load s'.group tok = .ok r ∧
      r.shape = a.shape ∧ r.dtype = a.dtype ∧ r.data = a.data := by
  simp only [persistent_id] at h
  by_cases hc : a.dtype ≠ "object" ∧ a.objId ∉ s.seen_ids
  · rw [if_pos hc] at h
    cases hsh : a.shape with
    | nil =>
      simp only [NPArray.pyLen, hsh] at h
      simp at h
    | cons n rest =>
      simp only [NPArray.pyLen, hsh] at h
      by_cases hn : n = 0
      · rw [if_pos hn] at h
        simp at h
      · rw [if_neg hn] at h
        cases hst : s.store a with
        | error e => rw [hst] at h; cases h
        | ok p =>
          rw [hst] at h
          obtain ⟨i, s''⟩ := p
          simp only [Except.ok.injEq, Prod.mk.injEq, Option.some.injEq] at h
          obtain ⟨htok, hs⟩ := h
          obtain ⟨hi, hlook⟩ := store_fresh s a i s'' hc.2 hst
          subst hs
          constructor
          · rw [← htok, hi]
          · refine ⟨a.stored, ?_, hsh, rfl, rfl⟩
            rw [← htok]
            simp [persistent_load, hi, hlook]
  · rw [if_neg hc] at h
    simp at h

/-- C4 witness: redirecting `wArr` from a fresh session emits the token
`("np_array", 7)` and resolving that token returns the exact payload. -/
theorem C4_roundtrip_witness :
    persistent_id wState (.array wArr) = .ok (some ("np_array", 7), wStateAfter) ∧
    (("np_array", 7) = (("np_array" : String), wArr.objId) ∧
      ∃ r, persistent_load wStateAfter.group ("np_array", 7) = .ok r ∧
        r.shape = wArr.shape ∧ r.dtype = wArr.dtype ∧ r.data = wArr.data) :=
  ⟨by rfl, C4_roundtrip wState wStateAfter wArr ("np_array", 7) (by rfl)⟩

/-- C5: when the computed key is already present in the Blob Store, `_store`
raises an `AssertionError` if the array's identity was never recorded in the
session's seen-set (integrity violation, fatal to the dump), while a
collision explained by the session's own prior write returns the existing
key without failing and without touching the state. -/
theorem C5_integrity_violation (s : PicklerState) (a : NPArray)
    (hkey : groupContains s.group (toString a.objId) = true) :
    (a.objId ∉ s.seen_ids → s.store a = .error .assertionError) ∧
    (a.objId ∈ s.seen_ids → s.store a = .ok (a.objId, s)) := by
  unfold PicklerState.store
  constructor
  · intro h
    rw [if_pos hkey, if_neg h]
  · intro h
    rw [if_pos hkey, if_pos h]

/-- C5 witness: `exStateBad` holds the key "1" without identity 1 in its
seen-set, so storing `exArr` fails with an `AssertionError`. -/
theorem C5_integrity_violation_witness :
    groupContains exStateBad.group (toString exArr.objId) = true ∧
    exArr.objId ∉ exStateBad.seen_ids ∧
    exStateBad.store exArr = .error .assertionError :=
  ⟨by decide, by decide,
    (C5_integrity_violation exStateBad exArr (by decide)).1 (by decide)⟩

/-- C6: for every class reference that passes the allow-list gate, an exact
registry entry for `'{module}.{name}'` makes `find_class` return the
replacement class, and a registry miss is not an error: the generic
decoder's default resolution is used unchanged. -/
theorem C6_migration_lookup (registry : String → Option Nat)
    (resolve : String → String → Except PyError Nat) (module name : String)
    (hpass : check_allowed module = .ok ()) :
    (∀ c, registry (module ++ "." ++ name) = some c →
      find_class registry resolve module name = .ok c) ∧
    (registry (module ++ "." ++ name) = none →
      find_class registry resolve module name = resolve module name) := by
  unfold find_class
  rw [hpass]
  constructor
  · intro c hc
    simp [hc]
  · intro hn
    simp [hn]

/-- C6 witness: with `pyemma` passing the gate, a registry hit on
`pyemma.OldClass` returns the replacement class 42 and a registry miss
falls back to the default resolver's class 7. -/
theorem C6_migration_lookup_witness :
    check_allowed "pyemma" = .ok () ∧
    find_class (fun s => if s = "pyemma.OldClass" then some 42 else none)
      (fun _ _ => .ok 7) "pyemma" "OldClass" = .ok 42 ∧
    find_class (fun _ => none) (fun _ _ => .ok 7) "pyemma" "OldClass" = .ok 7 :=
  ⟨by rfl,
   (C6_migration_lookup (fun s => if s = "pyemma.OldClass" then some 42 else none)
      (fun _ _ => .ok 7) "pyemma" "OldClass" (by rfl)).1 42 (by rfl),
   (C6_migration_lookup (fun _ => none)
      (fun _ _ => .ok 7) "pyemma" "OldClass" (by rfl)).2 (by rfl)⟩

/-- C7: `persistent_id` returns `None` and leaves the session untouched for
every non-array object, for every array of object dtype, and for every
array of length zero (the empty array is inlined; no Blob Store entry is
created). -/
theorem C7_ineligible_returns_none (s : PicklerState) :
    (∀ r, persistent_id s (.other r) = .ok (none, s)) ∧
    (∀ a, a.dtype = "object" → persistent_id s (.array a) = .ok (none, s)) ∧
    (∀ a rest, a.shape = 0 :: rest → persistent_id s (.array a) = .ok (none, s)) := by
  refine ⟨fun r => rfl, fun a h => ?_, fun a rest h => ?_⟩
  · simp [persistent_id, h]
  · by_cases hc : a.dtype ≠ "object" ∧ a.objId ∉ s.seen_ids
    · simp only [persistent_id, if_pos hc, NPArray.pyLen, h]
      simp
    · simp [persistent_id, hc]

/-- C7 witness: a non-array object, an object-dtype array and a length-zero
array all return `None` from a fresh session, unchanged. -/
theorem C7_ineligible_returns_none_witness :
    persistent_id wState (.other 9) = .ok (none, wState) ∧
    (w7ArrObj.dtype = "object" ∧
      persistent_id wState (.array w7ArrObj) = .ok (none, wState)) ∧
    (w7ArrEmpty.shape = 0 :: [] ∧
      persistent_id wState (.array w7ArrEmpty) = .ok (none, wState)) :=
  ⟨(C7_ineligible_returns_none wState).1 9,
   ⟨rfl, (C7_ineligible_returns_none wState).2.1 w7ArrObj rfl⟩,
   ⟨rfl, (C7_ineligible_returns_none wState).2.2 w7ArrEmpty [] rfl⟩⟩

/-- C8: the first redirection of an eligible array (non-object dtype,
nonzero length, identity unseen, key fresh) emits a token, records the
identity in the seen-set and creates exactly one Blob Store entry for the
key, and every later `persistent_id` call on the same instance (its identity
now in the seen-set) performs no second store and leaves the session
unchanged. -/
theorem C8_store_once (s : PicklerState) (a : NPArray) (n : Nat) (rest : List Nat)
    (hdt : a.dtype ≠ "object") (hsh : a.shape = n :: rest) (hn : n ≠ 0)
    (hseen : a.objId ∉ s.seen_ids)
    (hkey : groupGet s.group (toString a.objId) = none) :
    ∃ s', persistent_id s (.array a) = .ok (some ("np_array", a.objId), s') ∧
      a.objId ∈ s'.seen_ids ∧
      countKey s.group (toString a.objId) = 0 ∧
      countKey s'.group (toString a.objId) = 1 ∧
      ∀ t : PicklerState, a.objId ∈ t.seen_ids →
        persistent_id t (.array a) = .ok (none, t) := by
  have h0 : countKey s.group (toString a.objId) = 0 :=
    countKey_eq_zero_of_get_none s.group _ hkey
  refine ⟨{ group := (toString a.objId, a.stored) :: s.group,
            seen_ids := addSeen a.objId s.seen_ids }, ?_, ?_, h0, ?_, ?_⟩
  · have hcontains : groupContains s.group (toString a.objId) = false := by
      simp [groupContains, hkey]
    simp only [persistent_id, if_pos (And.intro hdt hseen), NPArray.pyLen, hsh,
      PicklerState.store, hcontains]
    simp [hn]
  · exact mem_addSeen a.objId s.seen_ids
  · rw [countKey_cons_self, h0]
  · intro t ht
    exact persistent_id_of_seen t a ht

/-- C8 witness: redirecting `w8Arr` from a fresh session stores it exactly
once, and any session that has seen identity 11 leaves it alone. -/
theorem C8_store_once_witness :
    ∃ s', persistent_id wState (.array w8Arr) = .ok (some ("np_array", w8Arr.objId), s') ∧
      w8Arr.objId ∈ s'.seen_ids ∧
      countKey wState.group (toString w8Arr.objId) = 0 ∧
      countKey s'.group (toString w8Arr.objId) = 1 ∧
      ∀ t : PicklerState, w8Arr.objId ∈ t.seen_ids →
        persistent_id t (.array w8Arr) = .ok (none, t) :=
  C8_store_once wState w8Arr 1 [] (by decide) rfl (by decide) (by decide) rfl

/-- C9: `dump` installs the `mdtraj.Topology.__getstate__` override exactly
for the duration of the wrapped generic dump and restores the prior
attribute on every exit path (the body's result, successful or raising, is
returned unchanged); `load` does the same for `__setstate__`.  No override
state leaks past the call boundary. -/
theorem C9_patch_scoped (body : ProcState → Except PyError Unit × ProcState)
    (lbody : ProcState → Except PyError PyObj × ProcState) (s : ProcState) :
    ((dump body s).2.topology_getstate = s.topology_getstate ∧
      (dump body s).1 = (body { s with topology_getstate := some mdtraj_getstate }).1) ∧
    ((load lbody s).2.topology_setstate = s.topology_setstate ∧
      (load lbody s).1 = (lbody { s with topology_setstate := some mdtraj_setstate }).1) :=
  ⟨⟨rfl, rfl⟩, ⟨rfl, rfl⟩⟩

/-- C10: a zero-dimensional array of non-object dtype whose identity is not
in the seen-set makes `persistent_id` raise `TypeError` (Python's
`len()` is undefined on an unsized object), so the dump fails; it neither
returns `None` nor a token. -/
theorem C10_zero_dim_raises (s : PicklerState) (a : NPArray)
    (hdt : a.dtype ≠ "object") (hseen : a.objId ∉ s.seen_ids) (hsh : a.shape = []) :
    persistent_id s (.array a) = .error (.typeError "len() of unsized object") := by
  simp only [persistent_id, if_pos (And.intro hdt hseen), NPArray.pyLen, hsh]

/-- C10 witness: dumping the zero-dimensional array `w10Arr` from a fresh
session raises `TypeError`. -/
theorem C10_zero_dim_raises_witness :
    w10Arr.shape = [] ∧
    persistent_id wState (.array w10Arr) = .error (.typeError "len() of unsized object") :=
  ⟨rfl, C10_zero_dim_raises wState w10Arr (by decide) (by decide) rfl⟩

end PyEMMA
